import Mathlib

/-!
Shallow embedding of the `MakeAPaymentPanel` React component
(payment workflow controller) from the repository source.

The component's `this.state` becomes the `State` structure; each class
method (`submitForm`, `confirmPaypalPayment`, `payment`, `onAuthorize`,
`closeDialog`, `resetForm`, `onCancel`, the input-change handlers) becomes a
Lean function on `State`.  A method that starts a network request is split at
the `await` point, exactly as the promises split it in the source: the
synchronous part returns the updated state together with the list of gateway
calls it issues, and each `.then` / `.catch` continuation becomes its own
function from `State` to `State`.  Gateway responses are therefore separate
events, so any interleaving of requests and responses can be analysed.

JavaScript numeric coercions used by the source — `parseInt(v, 10)`,
unary plus (`+usd`, the ToNumber coercion) and `Number.prototype.toFixed(2)` —
are modelled over decimal-literal strings, with NaN as `Option.none`.
-/

namespace MakeAPaymentPanel

/-- `type: 'CREDIT_CARD' | 'PAYPAL'` from the component state. -/
inductive PaymentType
  | CREDIT_CARD
  | PAYPAL
deriving DecidableEq, Repr

/-- `Linode.ApiFieldError`: the error entries of `this.state.errors`;
`field` is optional (general errors have none). -/
structure ApiFieldError where
  field : Option String
  reason : String
deriving DecidableEq, Repr

/-- The component's `State` interface (source lines 50-64).  Optional
fields (`success?`, `successMessage?`, `errors?`) are `Option`s. -/
structure State where
  type : PaymentType
  submitting : Bool
  success : Option Bool
  successMessage : Option String
  errors : Option (List ApiFieldError)
  usd : String
  ccv : String
  showPaypal : Bool
  paymentID : String
  payerID : String
  isExecutingPaypalPayment : Bool
  paypalSubmitEnabled : Bool
  dialogOpen : Bool
deriving DecidableEq, Repr

/-- Initial state (source lines 98-109). -/
def initState : State :=
  { type := PaymentType.CREDIT_CARD
    submitting := false
    success := none
    successMessage := none
    errors := none
    usd := ""
    ccv := ""
    showPaypal := false
    paymentID := ""
    payerID := ""
    isExecutingPaypalPayment := false
    paypalSubmitEnabled := false
    dialogOpen := false }

/-- The three gateway operations imported from `src/services/account`,
with the arguments the component passes to them. -/
inductive Call
  | makePayment (usd ccv : String)
  | stagePaypalPayment (cancel_url redirect_url usd : String)
  | executePaypalPayment (payer_id payment_id : String)
deriving DecidableEq, Repr

/-! ### JavaScript numeric coercions -/

/-- Numeric value of a decimal-digit character. -/
def digitVal (c : Char) : Nat := c.toNat - Char.toNat '0'

/-- Value of a list of decimal digits, most significant first. -/
def digitsVal (cs : List Char) : Nat :=
  cs.foldl (fun a c => a * 10 + digitVal c) 0

/-- `parseInt(v, 10)`: skip leading spaces, optional sign, then the longest
prefix of decimal digits; no digits gives NaN (`none`). -/
def jsParseInt (v : String) : Option Int :=
  let cs := v.toList.dropWhile (fun c => c = ' ')
  let core : List Char → Option Nat := fun l =>
    let ds := l.takeWhile Char.isDigit
    if ds = [] then none else some (digitsVal ds)
  match cs with
  | '-' :: rest => (core rest).map (fun n => -(n : Int))
  | '+' :: rest => (core rest).map (fun n => (n : Int))
  | _ => (core cs).map (fun n => (n : Int))

/-- A finite JS number arising from a decimal literal, represented exactly
as the rational `num / 10 ^ exp` (not normalised). -/
structure JsNumber where
  num : Int
  exp : Nat
deriving DecidableEq, Repr

/-- JS `ToNumber` on a string (the unary plus `+usd`), for the decimal
literal forms `[sign] digits [. digits]` and `[sign] . digits` produced by
the amount input; the empty / all-space string coerces to `0`, anything
else is NaN (`none`).  Exponent and hex forms never arise from the form
field and are mapped to NaN. -/
def jsToNumber (v : String) : Option JsNumber :=
  let cs :=
    ((v.toList.dropWhile (fun c => c = ' ')).reverse.dropWhile
      (fun c => c = ' ')).reverse
  if cs = [] then some { num := 0, exp := 0 } else
  let signRest : Int × List Char :=
    match cs with
    | '-' :: rest => (-1, rest)
    | '+' :: rest => (1, rest)
    | _ => (1, cs)
  let ip := signRest.2.takeWhile Char.isDigit
  let rest2 := signRest.2.dropWhile Char.isDigit
  match rest2 with
  | [] =>
    if ip = [] then none
    else some { num := signRest.1 * (digitsVal ip : Int), exp := 0 }
  | '.' :: fp =>
    if fp.all Char.isDigit ∧ (ip ≠ [] ∨ fp ≠ []) then
      some { num := signRest.1 *
               ((digitsVal ip * 10 ^ fp.length + digitsVal fp : Nat) : Int)
             exp := fp.length }
    else none
  | _ => none

/-- Left-pad a two-digit cents value. -/
def pad2 (n : Nat) : String :=
  if n < 10 then "0" ++ toString n else toString n

/-- `toFixed(2)` on a finite number `num / 10 ^ exp`: two decimal places,
rounding the magnitude to the nearest cent (`⌊|v| * 100 + 1/2⌋`, computed
in integers as `(200 * |num| + 10 ^ exp) / (2 * 10 ^ exp)`; the claims only
use exactly representable inputs, where every rounding mode agrees). -/
def toFixed2 (x : JsNumber) : String :=
  let d := 10 ^ x.exp
  let cents : Nat := (200 * x.num.natAbs + d) / (2 * d)
  (if x.num < 0 then "-" else "") ++
    toString (cents / 100) ++ "." ++ pad2 (cents % 100)

/-- The source expression `(+usd).toFixed(2)`: NaN prints as `"NaN"`. -/
def plusToFixed2 (v : String) : String :=
  match jsToNumber v with
  | none => "NaN"
  | some q => toFixed2 q

/-! ### Event handlers (the class methods) -/

/-- `handleTypeChange` (source lines 123-125). -/
def handleTypeChange (t : PaymentType) (s : State) : State :=
  { s with type := t }

/-- `amountAsInt >= 5` with NaN compared as false, as in JS. -/
def atLeastFive : Option Int → Bool
  | some n => decide (5 ≤ n)
  | none => false

/-- `handleUSDChange` (source lines 127-139): enables the PayPal submit
button when the parsed amount is at least 5 while type is PAYPAL, then
stores the entered value (`e.target.value || ''` is the value itself,
since the empty string is its own fallback). -/
def handleUSDChange (v : String) (s : State) : State :=
  let amountAsInt := jsParseInt v
  let s1 :=
    if s.type = PaymentType.PAYPAL ∧ atLeastFive amountAsInt then
      { s with paypalSubmitEnabled := true }
    else s
  { s1 with usd := v }

/-- `handleCCVChange` (source lines 141-142). -/
def handleCCVChange (v : String) (s : State) : State :=
  { s with ccv := v }

/-- The validation block of `submitForm` (source lines 147-154): one
entry is pushed per blank field, regardless of the selected payment type. -/
def validationErrors (s : State) : List ApiFieldError :=
  (if s.usd = "" then
    [{ field := some "usd", reason := "Amount cannot be blank." }] else []) ++
  (if s.ccv = "" then
    [{ field := some "ccv", reason := "CCV cannot be blank." }] else [])

/-- `submitForm` up to its `await` point (source lines 144-169): on a
validation failure it stores the errors and issues no call; otherwise it
sets `submitting`, clears errors and the success message, and issues the
`makePayment` request with the amount normalised by `(+usd).toFixed(2)`. -/
def submitForm (s : State) : State × List Call :=
  let errors := validationErrors s
  if errors ≠ [] then ({ s with errors := some errors }, [])
  else
    ({ s with submitting := true, errors := none, successMessage := some "" },
      [Call.makePayment (plusToFixed2 s.usd) s.ccv])

/-- The `.then` of `makePayment` (source lines 170-175). -/
def makePaymentThen (s : State) : State :=
  { s with submitting := false, success := some true }

/-- `pathOr([{reason: 'Unable to make a payment at this time.'}],
['response','data','errors'], error)`: the response's structured errors
when present, else the generic fallback. -/
def pathOrErrors (e : Option (List ApiFieldError)) : List ApiFieldError :=
  e.getD [{ field := none, reason := "Unable to make a payment at this time." }]

/-- The `.catch` of `makePayment` (source lines 176-182). -/
def makePaymentCatch (e : Option (List ApiFieldError)) (s : State) : State :=
  { s with submitting := false, errors := some (pathOrErrors e) }

/-- `resetForm` (source lines 185-191). -/
def resetForm (s : State) : State :=
  { s with errors := none, success := none, usd := "", ccv := ""
           type := PaymentType.CREDIT_CARD }

/-- `closeDialog` (source lines 193-198). -/
def closeDialog (s : State) : State :=
  { s with dialogOpen := false, success := some true
           successMessage := some "Payment Cancelled" }

/-- `confirmPaypalPayment` up to its `await` point (source lines 200-206):
sets the executing flag and issues the execute request with the stored
`payerID` and `paymentID`. -/
def confirmPaypalPayment (s : State) : State × List Call :=
  ({ s with isExecutingPaypalPayment := true },
    [Call.executePaypalPayment s.payerID s.paymentID])

/-- The `.then` of `executePaypalPayment` (source lines 207-215). -/
def executeThen (s : State) : State :=
  { s with isExecutingPaypalPayment := false, dialogOpen := false
           success := some true, usd := "", successMessage := some "" }

/-- The `.catch` of `executePaypalPayment` (source lines 216-222): note it
resets `submitting` (which this method never set), not
`isExecutingPaypalPayment`, and leaves `dialogOpen` untouched. -/
def executeCatch (e : Option (List ApiFieldError)) (s : State) : State :=
  { s with submitting := false, errors := some (pathOrErrors e) }

/-- `payment` up to its `await` point (source lines 256-268): the stage
request issued when the PayPal button is clicked. -/
def payment (s : State) : State × List Call :=
  ({ s with submitting := true, errors := some [] },
    [Call.stagePaypalPayment "https://cloud.linode.com/billing"
      "https://cloud.linode.com/billing" (plusToFixed2 s.usd)])

/-- The `.then` of `stagePaypalPayment` (source lines 269-275). -/
def stageThen (payment_id : String) (s : State) : State :=
  { s with submitting := false, paymentID := payment_id }

/-- The `.catch` of `stagePaypalPayment` (source lines 276-283). -/
def stageCatch (e : Option (List ApiFieldError)) (s : State) : State :=
  { s with submitting := false, errors := some (pathOrErrors e) }

/-- `onAuthorize` (source lines 296-301): the vendor widget's
authorization callback; opens the dialog and records the payer id. -/
def onAuthorize (payerID : String) (s : State) : State :=
  { s with dialogOpen := true, payerID := payerID }

/-- `onCancel` (source lines 309-314): out-of-band widget cancellation. -/
def onCancel (s : State) : State :=
  { s with success := some true, successMessage := some "Payment Cancelled" }

/-- `componentDidUpdate` (source lines 111-121), once the script loads. -/
def scriptLoadedUpdate (s : State) : State :=
  { s with showPaypal := true }

/-! ### The event system -/

/-- Every entry point of the component: user input, the UI buttons, the
vendor widget's callbacks, and the resolution of each pending gateway
promise (`...Ok` / `...Err` deliver the `.then` / `.catch`). -/
inductive Event
  | typeChange (t : PaymentType)
  | usdChange (v : String)
  | ccvChange (v : String)
  | submit
  | makePaymentOk
  | makePaymentErr (e : Option (List ApiFieldError))
  | paypalPay
  | stageOk (payment_id : String)
  | stageErr (e : Option (List ApiFieldError))
  | authorize (payerID : String)
  | widgetCancel
  | dialogClose
  | confirm
  | executeOk
  | executeErr (e : Option (List ApiFieldError))
  | reset
  | scriptLoaded
deriving DecidableEq, Repr

/-- One event: the new state and the gateway calls issued by the handler. -/
def step : Event → State → State × List Call
  | Event.typeChange t, s => (handleTypeChange t s, [])
  | Event.usdChange v, s => (handleUSDChange v s, [])
  | Event.ccvChange v, s => (handleCCVChange v s, [])
  | Event.submit, s => submitForm s
  | Event.makePaymentOk, s => (makePaymentThen s, [])
  | Event.makePaymentErr e, s => (makePaymentCatch e s, [])
  | Event.paypalPay, s => payment s
  | Event.stageOk pid, s => (stageThen pid s, [])
  | Event.stageErr e, s => (stageCatch e s, [])
  | Event.authorize p, s => (onAuthorize p s, [])
  | Event.widgetCancel, s => (onCancel s, [])
  | Event.dialogClose, s => (closeDialog s, [])
  | Event.confirm, s => confirmPaypalPayment s
  | Event.executeOk, s => (executeThen s, [])
  | Event.executeErr e, s => (executeCatch e s, [])
  | Event.reset, s => (resetForm s, [])
  | Event.scriptLoaded, s => (scriptLoadedUpdate s, [])

/-- Run a list of events from a state, keeping only the state. -/
def run (s : State) : List Event → State
  | [] => s
  | e :: es => run (step e s).1 es

/-- Whether a gateway call is the execute request. -/
def isExecuteCall : Call → Bool
  | Call.executePaypalPayment _ _ => true
  | _ => false

/-! ### Concrete inputs used by the claim theorems -/

/-- A minimal event trace ending in a confirmed execution: the vendor
widget authorizes, then the user confirms in the dialog. -/
def c1Trace : List Event := [Event.authorize "payer", Event.confirm]

/-- A draft whose amount is non-blank but not numeric. -/
def c3Input : State := { initState with usd := "abc", ccv := "123" }

/-- A valid draft with a makePayment request already in flight. -/
def c4Input : State :=
  { initState with submitting := true, usd := "10.00", ccv := "123" }

/-- A confirm-pending state with an execute request already in flight. -/
def c4ExecInput : State :=
  { initState with
      isExecutingPaypalPayment := true
      dialogOpen := true
      paymentID := "pid"
      payerID := "payer" }

/-- The claim C5 scenario draft: amount "10.00", credit card, CCV "123". -/
def c5Input : State := { initState with usd := "10.00", ccv := "123" }

/-- A confirm-pending PayPal state: staged payment id recorded, payer id
delivered by the authorization callback, dialog open. -/
def c6Input : State :=
  { initState with
      type := PaymentType.PAYPAL
      usd := "10.00"
      paymentID := "pid"
      payerID := "payer"
      dialogOpen := true }

/-- A state in which the execute request is in flight when the user
cancels the dialog. -/
def c7Input : State :=
  { initState with
      isExecutingPaypalPayment := true
      dialogOpen := true
      paymentID := "pid"
      payerID := "payer" }

/-- A complete PayPal workflow run: stage, authorize, confirm, successful
execute, then an explicit form reset. -/
def c8Trace : List Event :=
  [Event.typeChange PaymentType.PAYPAL, Event.usdChange "10", Event.paypalPay,
   Event.stageOk "pid", Event.authorize "payer", Event.confirm,
   Event.executeOk, Event.reset]

/-- The executing state in which the execute request then fails. -/
def c9Input : State :=
  { initState with
      dialogOpen := true
      isExecutingPaypalPayment := true
      paymentID := "pid"
      payerID := "payer" }

/-- A state whose PayPal submit flag has just been enabled by a keystroke
with value at least 5 while the type is PAYPAL. -/
def c10Setup : State :=
  run initState [Event.typeChange PaymentType.PAYPAL, Event.usdChange "10"]

/-- Subsequent operations that the claim says never disable the flag:
lowering the amount, a non-numeric amount, switching type, resetting. -/
def c10Later : List Event :=
  [Event.usdChange "1", Event.usdChange "abc",
   Event.typeChange PaymentType.CREDIT_CARD, Event.reset]

/-! ### Helper lemmas -/

/-- The execute request is only ever issued by the confirm handler. -/
theorem step_calls_execute_eq_confirm (e : Event) (s : State) (c : Call)
    (hc : c ∈ (step e s).2) (hx : isExecuteCall c = true) :
    e = Event.confirm := by
  cases e
  case confirm => rfl
  case submit =>
    simp only [step, submitForm] at hc
    split at hc
    · simp at hc
    · simp at hc
      subst hc
      simp [isExecuteCall] at hx
  case paypalPay =>
    simp only [step, payment, List.mem_singleton] at hc
    subst hc
    simp [isExecuteCall] at hx
  all_goals simp [step] at hc

/-- The only handler that opens the dialog is the authorization
callback. -/
theorem step_dialogOpen_true (e : Event) (s : State)
    (h : (step e s).1.dialogOpen = true) :
    s.dialogOpen = true ∨ ∃ p, e = Event.authorize p := by
  cases e
  case authorize p => exact Or.inr ⟨p, rfl⟩
  case submit =>
    left
    simp only [step, submitForm] at h
    split at h <;> exact h
  case usdChange v =>
    left
    simp only [step, handleUSDChange] at h
    split at h <;> exact h
  case dialogClose =>
    simp [step, closeDialog] at h
  case executeOk =>
    simp [step, executeThen] at h
  all_goals
    exact Or.inl (by simpa [step, handleTypeChange, handleCCVChange,
      makePaymentThen, makePaymentCatch, payment, stageThen, stageCatch,
      onCancel, confirmPaypalPayment, executeCatch, resetForm,
      scriptLoadedUpdate] using h)

/-- If a run starting with the dialog closed ends with it open, some
event of the run was the authorization callback. -/
theorem run_dialogOpen_authorize :
    ∀ (es : List Event) (s : State), s.dialogOpen = false →
      (run s es).dialogOpen = true →
      ∃ (j : Nat) (p : String), es[j]? = some (Event.authorize p) := by
  intro es
  induction es with
  | nil =>
    intro s h0 h1
    rw [run] at h1
    rw [h0] at h1
    cases h1
  | cons e es ih =>
    intro s h0 h1
    rw [run] at h1
    by_cases hd : (step e s).1.dialogOpen = true
    · rcases step_dialogOpen_true e s hd with h | ⟨p, rfl⟩
      · rw [h0] at h; cases h
      · exact ⟨0, p, by simp⟩
    · obtain ⟨j, p, hj⟩ := ih (step e s).1 (Bool.eq_false_iff.mpr hd) h1
      exact ⟨j + 1, p, by simpa using hj⟩

/-- An index found in a prefix is below the cut and found in the list. -/
theorem getElem?_take_some {α : Type} (l : List α) (n j : Nat) (x : α)
    (h : (l.take n)[j]? = some x) : j < n ∧ l[j]? = some x := by
  by_cases hlt : j < n
  · rw [List.getElem?_take_of_lt hlt] at h
    exact ⟨hlt, h⟩
  · rw [List.getElem?_take_eq_none (Nat.le_of_not_lt hlt)] at h
    cases h

/-- No handler ever resets `paypalSubmitEnabled` to false. -/
theorem step_paypalSubmitEnabled_mono (e : Event) (s : State)
    (h : s.paypalSubmitEnabled = true) :
    (step e s).1.paypalSubmitEnabled = true := by
  cases e
  case submit =>
    simp only [step, submitForm]
    split <;> exact h
  case usdChange v =>
    simp only [step, handleUSDChange]
    split <;> first | rfl | exact h
  all_goals
    simpa [step, handleTypeChange, handleCCVChange, makePaymentThen,
      makePaymentCatch, payment, stageThen, stageCatch, onAuthorize, onCancel,
      closeDialog, confirmPaypalPayment, executeThen, executeCatch, resetForm,
      scriptLoadedUpdate] using h

/-! ### Claim theorems -/

/-- Claim C1: in every run in which the confirm action only ever fires
while the confirmation dialog is open (as the UI wires it), an execute
request issued at step `i` means step `i` is the user's confirm action and
some strictly earlier step was the vendor widget's authorization callback
delivering a payer id; moreover the authorization callback itself never
issues any gateway call. -/
theorem c1_execute_only_after_authorize_and_confirm
    (es : List Event) (i : Nat) (e : Event) (c : Call)
    (hconf : ∀ j : Nat, es[j]? = some Event.confirm →
      (run initState (es.take j)).dialogOpen = true)
    (he : es[i]? = some e)
    (hc : c ∈ (step e (run initState (es.take i))).2)
    (hx : isExecuteCall c = true) :
    (e = Event.confirm ∧
      ∃ (j : Nat) (p : String), j < i ∧ es[j]? = some (Event.authorize p)) ∧
    (∀ (p : String) (t : State), (step (Event.authorize p) t).2 = []) := by
  have hec : e = Event.confirm := step_calls_execute_eq_confirm e _ c hc hx
  subst hec
  have hdo : (run initState (es.take i)).dialogOpen = true := hconf i he
  obtain ⟨j, p, hj⟩ := run_dialogOpen_authorize (es.take i) initState rfl hdo
  obtain ⟨hlt, hj2⟩ := getElem?_take_some es i j _ hj
  exact ⟨⟨rfl, j, p, hlt, hj2⟩, fun p t => rfl⟩

/-- Claim C1 witness: the two-event trace authorize-then-confirm
satisfies the dialog-gating hypothesis and issues its execute call at the
confirm step, after the authorization at index 0. -/
theorem c1_witness :
    c1Trace[1]? = some Event.confirm ∧
    ((Event.confirm = Event.confirm ∧
      ∃ (j : Nat) (p : String), j < 1 ∧ c1Trace[j]? = some (Event.authorize p)) ∧
    (∀ (p : String) (t : State), (step (Event.authorize p) t).2 = [])) := by
  refine ⟨rfl, c1_execute_only_after_authorize_and_confirm c1Trace 1 Event.confirm
    (Call.executePaypalPayment "payer" "") ?_ rfl (by decide) rfl⟩
  intro j hj
  match j with
  | 0 => exact absurd hj (by decide)
  | 1 => decide
  | j + 2 => exact Option.noConfusion hj

/-- Claim C2: for a draft with a blank amount, or a DirectCard draft with
a blank CCV, submit stores exactly the field-scoped validation errors (one
entry per blank field, addressed `usd` / `ccv`) and issues no gateway
call. -/
theorem c2_blank_fields_reject (s : State)
    (h : s.usd = "" ∨ (s.type = PaymentType.CREDIT_CARD ∧ s.ccv = "")) :
    (submitForm s).2 = [] ∧
    (submitForm s).1.errors = some (validationErrors s) ∧
    validationErrors s ≠ [] ∧
    (validationErrors s).countP (fun er => decide (er.field = some "usd"))
      = (if s.usd = "" then 1 else 0) ∧
    (validationErrors s).countP (fun er => decide (er.field = some "ccv"))
      = (if s.ccv = "" then 1 else 0) ∧
    (∀ er ∈ validationErrors s,
      er.field = some "usd" ∨ er.field = some "ccv") := by
  by_cases hu : s.usd = "" <;> by_cases hcv : s.ccv = ""
  · simp [submitForm, validationErrors, hu, hcv, List.countP, List.countP.go]
  · simp [submitForm, validationErrors, hu, hcv, List.countP, List.countP.go]
  · simp [submitForm, validationErrors, hu, hcv, List.countP, List.countP.go]
  · rcases h with h | ⟨_, h⟩
    · exact absurd h hu
    · exact absurd h hcv

/-- Claim C2 witness: the initial state (blank amount, DirectCard with
blank CCV) is rejected with its validation errors and no gateway call. -/
theorem c2_witness :
    (initState.usd = "" ∨ (initState.type = PaymentType.CREDIT_CARD ∧
      initState.ccv = "")) ∧
    ((submitForm initState).2 = [] ∧
      (submitForm initState).1.errors = some (validationErrors initState) ∧
      validationErrors initState ≠ [] ∧
      (validationErrors initState).countP
        (fun er => decide (er.field = some "usd"))
        = (if initState.usd = "" then 1 else 0) ∧
      (validationErrors initState).countP
        (fun er => decide (er.field = some "ccv"))
        = (if initState.ccv = "" then 1 else 0) ∧
      (∀ er ∈ validationErrors initState,
        er.field = some "usd" ∨ er.field = some "ccv")) :=
  ⟨Or.inl rfl, c2_blank_fields_reject initState (Or.inl rfl)⟩

/-- Claim C3 counterexample: the non-blank, non-numeric amount "abc" with
CCV "123" passes validation — no field error is stored and the gateway IS
called, with the amount transmitted as "NaN" — refuting the claim that a
non-parsing amount fails with a field-addressable error and no gateway
call. -/
theorem c3_counterexample :
    c3Input.usd ≠ "" ∧ jsToNumber c3Input.usd = none ∧
    (submitForm c3Input).2 = [Call.makePayment "NaN" "123"] ∧
    (submitForm c3Input).1.errors = none := by decide

/-- Claim C3 (amended): on submit, validation accepts the draft exactly
when the amount string and the CCV string are both non-blank (the CCV is
required for every payment type); parsing is not checked, and a non-blank
amount that does not parse as a number passes validation and produces a
makePayment call whose amount is the string "NaN". -/
theorem c3_amended_validation_only_blankness (s : State) :
    ((submitForm s).2 ≠ [] ↔ s.usd ≠ "" ∧ s.ccv ≠ "") ∧
    (s.usd ≠ "" → s.ccv ≠ "" → jsToNumber s.usd = none →
      (submitForm s).2 = [Call.makePayment "NaN" s.ccv] ∧
      (submitForm s).1.errors = none) := by
  constructor
  · constructor
    · intro hne
      by_cases hu : s.usd = "" <;> by_cases hcv : s.ccv = "" <;>
        simp [submitForm, validationErrors, hu, hcv] at hne ⊢
    · rintro ⟨hu, hcv⟩
      simp [submitForm, validationErrors, hu, hcv]
  · intro hu hcv hnan
    simp [submitForm, validationErrors, hu, hcv, plusToFixed2, hnan]

/-- Claim C3 witness: at the draft amount "abc" / CCV "123" the amended
statement's hypotheses hold and the gateway receives "NaN". -/
theorem c3_amended_witness :
    (c3Input.usd ≠ "" ∧ c3Input.ccv ≠ "" ∧ jsToNumber c3Input.usd = none) ∧
    ((submitForm c3Input).2 = [Call.makePayment "NaN" c3Input.ccv] ∧
      (submitForm c3Input).1.errors = none) :=
  ⟨by decide, (c3_amended_validation_only_blankness c3Input).2
    (by decide) (by decide) (by decide)⟩

/-- Claim C4 counterexample: with a makePayment request already in
flight (`submitting = true`), re-invoking submit issues another
makePayment call, and with an execute in flight
(`isExecutingPaypalPayment = true`) re-invoking confirm issues another
execute call — refuting the claim that re-invocation never produces a
second network call. -/
theorem c4_counterexample :
    c4Input.submitting = true ∧
    (submitForm c4Input).2 = [Call.makePayment "10.00" "123"] ∧
    c4ExecInput.isExecutingPaypalPayment = true ∧
    (confirmPaypalPayment c4ExecInput).2
      = [Call.executePaypalPayment "payer" "pid"] := by decide

/-- Claim C4 (amended): the handlers contain no in-flight guard — a
submit of a draft that passes validation issues a makePayment call even
while `submitting` is already set, and confirm always issues an execute
call even while `isExecutingPaypalPayment` is already set; at most one
in-flight request per workflow instance is not enforced by the
controller. -/
theorem c4_amended_no_reentrancy_guard (s t : State)
    (_hs : s.submitting = true) (hu : s.usd ≠ "") (hcv : s.ccv ≠ "")
    (_ht : t.isExecutingPaypalPayment = true) :
    (submitForm s).2 = [Call.makePayment (plusToFixed2 s.usd) s.ccv] ∧
    (confirmPaypalPayment t).2
      = [Call.executePaypalPayment t.payerID t.paymentID] := by
  constructor
  · simp [submitForm, validationErrors, hu, hcv]
  · rfl

/-- Claim C4 witness: the amended statement at the two in-flight states. -/
theorem c4_amended_witness :
    (c4Input.submitting = true ∧ c4Input.usd ≠ "" ∧ c4Input.ccv ≠ "" ∧
      c4ExecInput.isExecutingPaypalPayment = true) ∧
    ((submitForm c4Input).2
        = [Call.makePayment (plusToFixed2 c4Input.usd) c4Input.ccv] ∧
      (confirmPaypalPayment c4ExecInput).2
        = [Call.executePaypalPayment c4ExecInput.payerID
            c4ExecInput.paymentID]) :=
  ⟨by decide, c4_amended_no_reentrancy_guard c4Input c4ExecInput
    rfl (by decide) (by decide) rfl⟩

/-- Claim C5: the draft amount "10.00", DirectCard, CCV "123" produces
exactly one makePayment call with usd "10.00" and ccv "123", and a
successful response reaches the success terminal state (success flag set,
busy flag cleared, no errors). -/
theorem c5_direct_card_scenario :
    c5Input.type = PaymentType.CREDIT_CARD ∧
    (submitForm c5Input).2 = [Call.makePayment "10.00" "123"] ∧
    (makePaymentThen (submitForm c5Input).1).success = some true ∧
    (makePaymentThen (submitForm c5Input).1).submitting = false ∧
    (makePaymentThen (submitForm c5Input).1).errors = none := by decide

/-- Claim C6 at its failing input: confirming from the confirm-pending
state issues exactly one execute request with the stored payer and
payment ids, and on success the workflow reaches the success terminal
state with the amount cleared and the dialog closed; but on failure the
code leaves `dialogOpen = true` and `isExecutingPaypalPayment = true`
(the catch clears the unrelated `submitting` flag), so the confirmation
dialog remains open — diverging from the claim that failure closes the
dialog and reaches the failed terminal state. -/
theorem c6_execute_failure_leaves_dialog_open :
    (confirmPaypalPayment c6Input).2
      = [Call.executePaypalPayment "payer" "pid"] ∧
    (executeThen (confirmPaypalPayment c6Input).1).success = some true ∧
    (executeThen (confirmPaypalPayment c6Input).1).usd = "" ∧
    (executeThen (confirmPaypalPayment c6Input).1).dialogOpen = false ∧
    (executeCatch none (confirmPaypalPayment c6Input).1).dialogOpen = true ∧
    (executeCatch none (confirmPaypalPayment c6Input).1).isExecutingPaypalPayment
      = true ∧
    (executeCatch none (confirmPaypalPayment c6Input).1).usd = "10.00" := by
  decide

/-- Claim C7 counterexample: cancelling while the execute request is in
flight reports the plain "Payment Cancelled" success message — there is
no distinct unknown-outcome message — refuting the claim. -/
theorem c7_counterexample :
    c7Input.isExecutingPaypalPayment = true ∧
    (closeDialog c7Input).successMessage = some "Payment Cancelled" ∧
    (closeDialog c7Input).success = some true := by decide

/-- Claim C7 (amended): closing the dialog reports the plain
"Payment Cancelled" success message unconditionally — including while
`isExecutingPaypalPayment` is set — and no unknown-outcome report exists
in the component. -/
theorem c7_amended_cancel_reported_plainly (s : State) :
    (closeDialog s).successMessage = some "Payment Cancelled" ∧
    (closeDialog s).success = some true ∧
    (closeDialog s).isExecutingPaypalPayment = s.isExecutingPaypalPayment :=
  ⟨rfl, rfl, rfl⟩

/-- Claim C8 counterexample: after a complete PayPal run — stage,
authorize, confirm, successful execute — followed by an explicit form
reset, the state still holds that run's paymentID and payerID, refuting
the claim that they are discarded at the end of the run. -/
theorem c8_counterexample :
    (run initState c8Trace).paymentID = "pid" ∧
    (run initState c8Trace).payerID = "payer" := by decide

/-- Claim C8 (amended): paymentID and payerID are written by the stage
response and the authorization callback but never cleared — the execute
response handlers, closeDialog and resetForm all leave them unchanged, so
they persist in component state beyond the workflow run. -/
theorem c8_amended_staged_ids_never_cleared (s : State)
    (e : Option (List ApiFieldError)) :
    (executeThen s).paymentID = s.paymentID ∧
    (executeThen s).payerID = s.payerID ∧
    (executeCatch e s).paymentID = s.paymentID ∧
    (executeCatch e s).payerID = s.payerID ∧
    (closeDialog s).paymentID = s.paymentID ∧
    (closeDialog s).payerID = s.payerID ∧
    (resetForm s).paymentID = s.paymentID ∧
    (resetForm s).payerID = s.payerID :=
  ⟨rfl, rfl, rfl, rfl, rfl, rfl, rfl, rfl⟩

/-- Claim C9 at its failing input: the makePayment and stage failure
handlers do clear the `submitting` busy flag, but the execute failure
handler leaves `isExecutingPaypalPayment = true` and the dialog open (it
clears `submitting`, which the confirm path never set), so after an
execute failure the workflow is not reset to a retryable state. -/
theorem c9_execute_failure_not_retryable :
    (makePaymentCatch none c9Input).submitting = false ∧
    (stageCatch none c9Input).submitting = false ∧
    (executeCatch none c9Input).isExecutingPaypalPayment = true ∧
    (executeCatch none c9Input).dialogOpen = true := by decide

/-- Claim C10: the `paypalSubmitEnabled` flag is monotone — from any
state in which it is true, no sequence of subsequent operations (amount
keystrokes, type switches, resets, or any other handler) ever makes it
false again. -/
theorem c10_paypalSubmitEnabled_monotone (s : State) (es : List Event)
    (h : s.paypalSubmitEnabled = true) :
    (run s es).paypalSubmitEnabled = true := by
  induction es generalizing s with
  | nil => exact h
  | cons e es ih => exact ih _ (step_paypalSubmitEnabled_mono e s h)

/-- Claim C10 witness: a keystroke of "10" while the type is PAYPAL sets
the flag, and it survives lowering the amount, a non-numeric amount,
switching type, and resetting the form. -/
theorem c10_witness :
    c10Setup.paypalSubmitEnabled = true ∧
    (run c10Setup c10Later).paypalSubmitEnabled = true :=
  ⟨by decide, c10_paypalSubmitEnabled_monotone c10Setup c10Later (by decide)⟩

end MakeAPaymentPanel
